import Mathlib

/-!
Verification of the homework-status notification bot (`homework.py`) against
its natural-language specification.

The embedding models Python JSON-like values as `PyVal`, Python exceptions as
`PyErr`, and the functions `send_message`, `get_api_answer`, `check_response`,
`parse_status` and the body of the `while True:` loop in `main` as pure Lean
functions.  Network and clock effects are passed in explicitly through a
`StepEnv` record, and the loop's mutable variables (`current_timestamp`,
`last_error_message`) form the `LoopState` record.
-/

/-- A Python value as produced by `response.json()`: `None`, booleans,
integers, strings, lists and string-keyed dictionaries (JSON objects always
have string keys). -/
inductive PyVal where
  | pyNone : PyVal
  | bool : Bool → PyVal
  | int : Int → PyVal
  | str : String → PyVal
  | list : List PyVal → PyVal
  | dict : List (String × PyVal) → PyVal

/-- Python truthiness: `None`, `False`, `0`, `""`, `[]`, `{}` are falsy. -/
def PyVal.truthy : PyVal → Bool
  | .pyNone => false
  | .bool b => b
  | .int n => n != 0
  | .str s => s != ""
  | .list xs => !xs.isEmpty
  | .dict kvs => !kvs.isEmpty

/-- Python `isinstance(v, dict)`. -/
def PyVal.isDict : PyVal → Bool
  | .dict _ => true
  | _ => false

/-- Python `isinstance(v, list)`. -/
def PyVal.isList : PyVal → Bool
  | .list _ => true
  | _ => false

/-- Python `isinstance(v, int)`.  In Python `bool` is a subclass of `int`, so
booleans pass this check as well. -/
def PyVal.isInt : PyVal → Bool
  | .int _ => true
  | .bool _ => true
  | _ => false

/-- Dictionary item lookup: `some` iff the key is present (`k in d` /
`d[k]`); `none` for absent keys and for non-dict values. -/
def PyVal.lookupKey : PyVal → String → Option PyVal
  | .dict kvs, k => kvs.lookup k
  | _, _ => Option.none

/-- Python `d.get(k)`: the value when present, `None` otherwise. -/
def PyVal.get (v : PyVal) (k : String) : PyVal :=
  (v.lookupKey k).getD .pyNone

/-- The first element of a Python list (`xs[0]`), when there is one. -/
def PyVal.firstElem : PyVal → Option PyVal
  | .list (x :: _) => some x
  | _ => Option.none

mutual

/-- Python `repr` of a value, simplified: strings are wrapped in single
quotes without escaping (the messages of this program contain no single
quotes, so this agrees with CPython there). -/
def PyVal.reprStr : PyVal → String
  | .pyNone => "None"
  | .bool true => "True"
  | .bool false => "False"
  | .int n => toString n
  | .str s => "\x27" ++ s ++ "\x27"
  | .list xs => "[" ++ String.intercalate ", " (PyVal.reprStrList xs) ++ "]"
  | .dict kvs => "\x7b" ++ String.intercalate ", " (PyVal.reprStrDict kvs) ++ "\x7d"

/-- Python `repr` of each element of a list. -/
def PyVal.reprStrList : List PyVal → List String
  | [] => []
  | x :: xs => PyVal.reprStr x :: PyVal.reprStrList xs

/-- Python `repr` of each key-value pair of a dict. -/
def PyVal.reprStrDict : List (String × PyVal) → List String
  | [] => []
  | (k, v) :: xs => ("\x27" ++ k ++ "\x27: " ++ PyVal.reprStr v) :: PyVal.reprStrDict xs

end

/-- Python `str` of a value, as used by f-string interpolation: a string
interpolates as itself, every other value as its `repr`. -/
def PyVal.pyStr : PyVal → String
  | .str s => s
  | v => v.reprStr

/-- A raised Python exception, by class: `TypeError`, `KeyError`, the custom
`ConnectionError` from `exceptions.py`, a plain `Exception`, and the custom
`MissedTokenError`. -/
inductive PyErr where
  | typeError : String → PyErr
  | keyError : String → PyErr
  | connectionError : String → PyErr
  | exn : String → PyErr
  | missedTokenError : String → PyErr
deriving DecidableEq

/-- Python `str(error)` as interpolated by the f-strings of `homework.py`.
CPython peculiarity: `str` of a `KeyError` is the `repr` of its argument, so
a `KeyError` message gains surrounding single quotes (the messages here
contain double quotes but no single quotes). -/
def PyErr.message : PyErr → String
  | .typeError m => m
  | .keyError m => "\x27" ++ m ++ "\x27"
  | .connectionError m => m
  | .exn m => m
  | .missedTokenError m => m

/-- An index identifying the exception class alone, ignoring the message:
two errors are of the same kind iff their `kindIdx` agree. -/
def PyErr.kindIdx : PyErr → Nat
  | .typeError _ => 0
  | .keyError _ => 1
  | .connectionError _ => 2
  | .exn _ => 3
  | .missedTokenError _ => 4

/-- The `HOMEWORK_VERDICTS` table of `homework.py`. -/
def HOMEWORK_VERDICTS : List (String × String) :=
  [("approved", "Работа проверена: ревьюеру всё понравилось. Ура!"),
   ("reviewing", "Работа взята на проверку ревьюером."),
   ("rejected", "Работа проверена: у ревьюера есть замечания.")]

/-- Python membership test `homework_status in HOMEWORK_VERDICTS`: dict
membership hashes the key first, so an unhashable value (a list or a dict)
raises `TypeError: unhashable type` at the test itself rather than testing
false; hashable non-string values are simply absent from the string-keyed
table. -/
def inVerdicts (status : PyVal) : Except PyErr Bool :=
  match status with
  | .str s => .ok (HOMEWORK_VERDICTS.lookup s).isSome
  | .list _ => .error (.typeError "unhashable type: \x27list\x27")
  | .dict _ => .error (.typeError "unhashable type: \x27dict\x27")
  | _ => .ok false

/-- Function `parse_status` of `homework.py`: checks the record is a dict with keys
`homework_name` and `status`, looks the status up in `HOMEWORK_VERDICTS`,
and renders the notification line. -/
def parse_status (homework : PyVal) : Except PyErr String :=
  if !homework.isDict then
    .error (.typeError "Данные о домашке не являются словарем")
  else if (homework.lookupKey "homework_name").isNone then
    .error (.keyError "В данных о домашке нет ключа \"homework_name\"")
  else if (homework.lookupKey "status").isNone then
    .error (.keyError "В данных о домашке нет ключа \"status\"")
  else
    let homework_name := (homework.lookupKey "homework_name").getD .pyNone
    let homework_status := (homework.lookupKey "status").getD .pyNone
    match inVerdicts homework_status with
    | .error e => .error e
    | .ok isKnown =>
      if !isKnown then
        .error (.keyError ("Статус " ++ homework_status.pyStr ++ " не распознан"))
      else
        let verdict :=
          match homework_status with
          | .str s => (HOMEWORK_VERDICTS.lookup s).getD ""
          | _ => ""
        .ok ("Изменился статус проверки работы \"" ++ homework_name.pyStr ++ "\". " ++ verdict)

/-- Function `check_response` of `homework.py`: validates the payload shape and
returns `response["homeworks"]`. -/
def check_response (response : PyVal) : Except PyErr PyVal :=
  if !response.isDict then
    .error (.typeError "Ответ, полученный от API, не является словарем")
  else
    match response.lookupKey "homeworks" with
    | Option.none => .error (.keyError "В ответе API нет ключа \"homeworks\"")
    | some homeworks =>
      if !homeworks.isList then
        .error (.typeError "Значение по ключу \"homeworks\" не является списком")
      else
        match response.lookupKey "current_date" with
        | Option.none => .error (.keyError "В ответе API нет ключа \"current_date\"")
        | some current_date =>
          if !current_date.isInt then
            .error (.typeError "Значение по ключу \"current_date\" некорректно")
          else
            .ok homeworks

/-- The outcome of `requests.get` for one request: either the call raises
(`Except.error` with the exception text) or it returns a response object with
a status code and a `.json()` outcome (which itself can raise). -/
structure HttpResponse where
  status_code : Nat
  json : Except String PyVal

/-- The external world of one poll iteration: the HTTP behaviour as a
function of the `from_date` query-parameter value that the request is issued
with, the current clock value `int(time.time())`, and whether the Telegram
delivery call `bot.send_message` raises. -/
structure StepEnv where
  http : PyVal → Except String HttpResponse
  now : Int
  sendFails : Bool

/-- The mutable variables of `main`'s loop: `current_timestamp` (assigned
from `response.get("current_date")`, hence a `PyVal`) and
`last_error_message` (initially `None`). -/
structure LoopState where
  current_timestamp : PyVal
  last_error_message : Option String

/-- Delivery call `bot.send_message(chat_id=..., text=message)`: raises exactly when the
environment says delivery fails. -/
def bot_send_message (sendFails : Bool) (_message : String) : Except String Unit :=
  if sendFails then .error "Bad Request" else .ok ()

/-- Function `send_message` of `homework.py`: attempts delivery and catches any
exception (logging it), so it never fails outward — its type is total. -/
def send_message (sendFails : Bool) (message : String) : Unit :=
  match bot_send_message sendFails message with
  | .ok _ => ()
  | .error _ => ()

/-- Assignment `timestamp = current_timestamp or int(time.time())`: Python `or` takes
the clock value whenever `current_timestamp` is falsy (in particular `0`). -/
def apiTimestamp (current_timestamp : PyVal) (now : Int) : PyVal :=
  if current_timestamp.truthy then current_timestamp else .int now

/-- Function `get_api_answer` of `homework.py`.  The request is issued with the single
query parameter `from_date = apiTimestamp current_timestamp now` (the `http`
function is consulted at exactly that value).  A non-200 status raises
`ConnectionError` with the status code in the message; a JSON-decoding
failure raises a plain `Exception`; the outer `except Exception` re-wraps
every one of these (and any `requests.get` failure) into a plain `Exception`
with the prefix `Ошибка при попытке подключения к эндпоинту: `. -/
def get_api_answer (http : PyVal → Except String HttpResponse)
    (current_timestamp : PyVal) (now : Int) : Except PyErr PyVal :=
  let timestamp := apiTimestamp current_timestamp now
  let inner : Except PyErr PyVal :=
    match http timestamp with
    | .error e => .error (.exn e)
    | .ok response =>
      if response.status_code != 200 then
        .error (.connectionError ("Ответ не получен,код ошибки: " ++ toString response.status_code))
      else
        match response.json with
        | .error e => .error (.exn ("Формат полученного ответа - не JSON: " ++ e))
        | .ok v => .ok v
  match inner with
  | .ok v => .ok v
  | .error e => .error (.exn ("Ошибка при попытке подключения к эндпоинту: " ++ e.message))

/-- The failure message built in the `except` branch of `main`'s loop from
the f-string `Сбой в работе программы: {error}`. -/
def failMsg (e : PyErr) : String :=
  "Сбой в работе программы: " ++ e.message

/-- The `try:` block of one iteration of `main`'s loop: fetch, validate,
format-and-send for a non-empty homeworks list, and compute the new
`current_timestamp` from `response.get("current_date")`.  Returns the new
timestamp together with the list of messages passed to `send_message` on
this path, or the first exception raised. -/
def iterBody (env : StepEnv) (s : LoopState) : Except PyErr (PyVal × List String) :=
  match get_api_answer env.http s.current_timestamp env.now with
  | .error e => .error e
  | .ok response =>
    match check_response response with
    | .error e => .error e
    | .ok homeworks =>
      if homeworks.truthy then
        match homeworks.firstElem with
        | some hw =>
          match parse_status hw with
          | .error e => .error e
          | .ok message =>
            let _u := send_message env.sendFails message
            .ok (response.get "current_date", [message])
        | Option.none =>
          -- unreachable: `check_response` only returns values passing `isList`,
          -- and a truthy list has a first element; Python would raise a
          -- TypeError from the subscript `homeworks[0]` here
          .error (.typeError "object is not subscriptable")
      else
        .ok (response.get "current_date", [])

/-- One full iteration of `main`'s `while True:` loop (minus the sleep):
on success the cursor is updated and `last_error_message` is cleared by the
`else:` clause; on failure the message is sent iff it differs from
`last_error_message`, which is then overwritten.  The second component lists
the messages passed to `send_message` during the iteration, i.e. the
attempted notifications. -/
def mainStep (env : StepEnv) (s : LoopState) : LoopState × List String :=
  match iterBody env s with
  | .ok (newTimestamp, messages) =>
    ({ current_timestamp := newTimestamp, last_error_message := Option.none }, messages)
  | .error e =>
    let message := failMsg e
    if some message ≠ s.last_error_message then
      let _u := send_message env.sendFails message
      ({ s with last_error_message := some message }, [message])
    else
      (s, [])

/-- Does a value carry an integer-typed `current_date` field? -/
def hasIntCurrentDate (v : PyVal) : Bool :=
  match v.lookupKey "current_date" with
  | some x => x.isInt
  | Option.none => false

/-- Whenever `check_response` succeeds, the returned value is the payload's
`homeworks` entry, it is a list, and the payload itself carries an
integer-typed `current_date`. -/
theorem check_response_ok_shape {p v : PyVal} (h : check_response p = Except.ok v) :
    (∃ xs, v = PyVal.list xs) ∧ p.lookupKey "homeworks" = some v ∧ hasIntCurrentDate p = true := by
  cases p with
  | dict kvs =>
    simp only [check_response, PyVal.isDict, PyVal.lookupKey, Bool.not_true] at h ⊢
    rcases hh : kvs.lookup "homeworks" with _ | hw <;> simp only [hh] at h
    · simp at h
    · by_cases hl : hw.isList
      · rcases hcd : kvs.lookup "current_date" with _ | cd <;> simp only [hl, hcd] at h
        · simp at h
        · by_cases hi : cd.isInt
          · simp [hi] at h
            subst h
            cases hw with
            | list xs => exact ⟨⟨xs, rfl⟩, rfl, by simp [hasIntCurrentDate, PyVal.lookupKey, hcd, hi]⟩
            | pyNone => simp [PyVal.isList] at hl
            | bool b => simp [PyVal.isList] at hl
            | int n => simp [PyVal.isList] at hl
            | str s => simp [PyVal.isList] at hl
            | dict d => simp [PyVal.isList] at hl
          · simp [hi] at h
      · simp [hl] at h
  | pyNone => simp [check_response, PyVal.isDict] at h
  | bool b => simp [check_response, PyVal.isDict] at h
  | int n => simp [check_response, PyVal.isDict] at h
  | str s => simp [check_response, PyVal.isDict] at h
  | list xs => simp [check_response, PyVal.isDict] at h

/-- When the iteration body fails, `mainStep` takes the `except` branch:
notify-and-overwrite when the message is new, suppress when it repeats. -/
theorem mainStep_error_eq (env : StepEnv) (s : LoopState) (e : PyErr)
    (h : iterBody env s = Except.error e) :
    mainStep env s =
      if s.last_error_message = some (failMsg e) then (s, [])
      else ({ s with last_error_message := some (failMsg e) }, [failMsg e]) := by
  unfold mainStep
  rw [h]
  by_cases hc : s.last_error_message = some (failMsg e)
  · simp [hc]
  · simp only [ne_eq]
    rw [if_neg hc]
    rw [if_pos]
    exact fun hx => hc hx.symm

/-- When the iteration body succeeds, `mainStep` installs the new timestamp,
clears `last_error_message`, and reports the success-path messages. -/
theorem mainStep_ok_eq (env : StepEnv) (s : LoopState) (ts : PyVal) (msgs : List String)
    (h : iterBody env s = Except.ok (ts, msgs)) :
    mainStep env s =
      ({ current_timestamp := ts, last_error_message := Option.none }, msgs) := by
  unfold mainStep
  rw [h]

/-- A world in which `requests.get` itself raises. -/
def envDown : StepEnv :=
  { http := fun _ => Except.error "boom", now := 0, sendFails := false }

/-- The wrapped exception `get_api_answer` raises in `envDown`. -/
def errDown : PyErr :=
  .exn "Ошибка при попытке подключения к эндпоинту: boom"

/-- The loop state at startup: a nonzero timestamp, no last error. -/
def s0 : LoopState :=
  { current_timestamp := PyVal.int 1, last_error_message := Option.none }

/-- A world in which the API returns `{"homeworks": [], "current_date": 1000}`
with status 200. -/
def envEmptyOk : StepEnv :=
  { http := fun _ =>
      Except.ok { status_code := 200,
                  json := Except.ok (.dict [("homeworks", .list []), ("current_date", .int 1000)]) },
    now := 0, sendFails := false }

/-- Claim C1: in the failure branch of a poll iteration, `send_message` is
invoked with the formatted failure message iff that message differs from
`last_error_message` (an identical consecutive message is suppressed, a
different one is sent even for the same failure kind), and
`last_error_message` ends up holding that message. -/
theorem mainStep_failure_dedup (env : StepEnv) (s : LoopState) (e : PyErr)
    (h : iterBody env s = Except.error e) :
    (mainStep env s).2 =
      (if s.last_error_message = some (failMsg e) then [] else [failMsg e]) ∧
    (mainStep env s).1.last_error_message = some (failMsg e) := by
  rw [mainStep_error_eq env s e h]
  by_cases hc : s.last_error_message = some (failMsg e) <;> simp [hc]

/-- Witness for C1 at a concrete transport failure from the initial state. -/
theorem mainStep_failure_dedup_witness :
    (mainStep envDown s0).2 = [failMsg errDown] ∧
    (mainStep envDown s0).1.last_error_message = some (failMsg errDown) := by
  have h := mainStep_failure_dedup envDown s0 errDown rfl
  simpa [s0] using h

/-- Claim C2: after a poll iteration that completes without a caught failure,
`last_error_message` is reset to `None`, so a failure message recurring on a
later iteration is notified again rather than suppressed. -/
theorem mainStep_success_clears_last (env : StepEnv) (s : LoopState)
    (ts : PyVal) (msgs : List String)
    (h : iterBody env s = Except.ok (ts, msgs)) :
    (mainStep env s).1.last_error_message = Option.none ∧
    (∀ env2 e2, iterBody env2 (mainStep env s).1 = Except.error e2 →
      (mainStep env2 (mainStep env s).1).2 = [failMsg e2]) := by
  rw [mainStep_ok_eq env s ts msgs h]
  refine ⟨rfl, ?_⟩
  intro env2 e2 h2
  rw [mainStep_error_eq env2 _ e2 h2]
  simp

/-- Witness for C2 at a concrete successful (empty-homeworks) iteration. -/
theorem mainStep_success_clears_last_witness :
    (mainStep envEmptyOk s0).1.last_error_message = Option.none ∧
    (∀ env2 e2, iterBody env2 (mainStep envEmptyOk s0).1 = Except.error e2 →
      (mainStep env2 (mainStep envEmptyOk s0).1).2 = [failMsg e2]) :=
  mainStep_success_clears_last envEmptyOk s0 (PyVal.int 1000) [] rfl

/-- Claim C3: for a record that is a dict with a string `homework_name` and a
string `status` that is a key of `HOMEWORK_VERDICTS`, `parse_status` returns
exactly the line `Изменился статус проверки работы "{homework_name}".
{verdict}` with the catalog verdict for that status. -/
theorem parse_status_formats (kvs : List (String × PyVal)) (name status verdict : String)
    (hname : kvs.lookup "homework_name" = some (PyVal.str name))
    (hstatus : kvs.lookup "status" = some (PyVal.str status))
    (hverdict : HOMEWORK_VERDICTS.lookup status = some verdict) :
    parse_status (PyVal.dict kvs) =
      Except.ok ("Изменился статус проверки работы \"" ++ name ++ "\". " ++ verdict) := by
  simp [parse_status, PyVal.isDict, PyVal.lookupKey, hname, hstatus, inVerdicts, hverdict,
    PyVal.pyStr]

/-- Witness for C3: status `approved`, name `X`, yielding the exact sentence
of the specification. -/
theorem parse_status_formats_witness :
    parse_status (PyVal.dict [("homework_name", PyVal.str "X"), ("status", PyVal.str "approved")]) =
      Except.ok "Изменился статус проверки работы \"X\". Работа проверена: ревьюеру всё понравилось. Ура!" :=
  parse_status_formats _ "X" "approved" _ rfl rfl rfl

/-- Counterexample to claim C4: a present but unhashable `status` value (here
the empty list) makes the membership test `homework_status not in
HOMEWORK_VERDICTS` itself raise `TypeError: unhashable type` — a different
exception class from the claimed `UnknownStatusError` (`KeyError`) naming the
status, which is never reached. -/
theorem parse_status_unhashable_status :
    parse_status (.dict [("homework_name", .str "A"), ("status", .list [])]) =
      Except.error (.typeError "unhashable type: \x27list\x27") ∧
    PyErr.typeError "unhashable type: \x27list\x27" ≠
      PyErr.keyError "Статус [] не распознан" :=
  ⟨rfl, by decide⟩

/-- Claim C4 as amended: a record whose `status` field is present, hashable,
and not one of the three catalog keys makes `parse_status` fail with a
`KeyError` naming that status (an unhashable status instead raises
`TypeError` at the membership test), and in an iteration whose first fetched
record it is, the only notification possibly attempted is the de-duplicated
failure notice — no status notification is sent for the record. -/
theorem parse_status_unknown_status (kvs : List (String × PyVal)) (st : PyVal)
    (env : StepEnv) (s : LoopState) (response : PyVal) (rest : List PyVal)
    (hname : (kvs.lookup "homework_name").isSome)
    (hstatus : kvs.lookup "status" = some st)
    (hunknown : inVerdicts st = Except.ok false)
    (hfetch : get_api_answer env.http s.current_timestamp env.now = Except.ok response)
    (hcheck : check_response response = Except.ok (PyVal.list (PyVal.dict kvs :: rest))) :
    parse_status (PyVal.dict kvs) =
      Except.error (PyErr.keyError ("Статус " ++ st.pyStr ++ " не распознан")) ∧
    (mainStep env s).2 =
      (if s.last_error_message =
          some (failMsg (PyErr.keyError ("Статус " ++ st.pyStr ++ " не распознан")))
       then []
       else [failMsg (PyErr.keyError ("Статус " ++ st.pyStr ++ " не распознан"))]) := by
  rcases Option.isSome_iff_exists.mp hname with ⟨nv, hnv⟩
  have hps : parse_status (PyVal.dict kvs) =
      Except.error (PyErr.keyError ("Статус " ++ st.pyStr ++ " не распознан")) := by
    simp [parse_status, PyVal.isDict, PyVal.lookupKey, hnv, hstatus, hunknown]
  have hiter : iterBody env s =
      Except.error (PyErr.keyError ("Статус " ++ st.pyStr ++ " не распознан")) := by
    simp [iterBody, hfetch, hcheck, PyVal.truthy, PyVal.firstElem, hps]
  refine ⟨hps, ?_⟩
  rw [mainStep_error_eq env s _ hiter]
  by_cases hc : s.last_error_message =
      some (failMsg (PyErr.keyError ("Статус " ++ st.pyStr ++ " не распознан"))) <;>
    simp [hc]

/-- A record whose `status` is the unrecognized string `weird`. -/
def weirdRecord : List (String × PyVal) :=
  [("homework_name", PyVal.str "A"), ("status", PyVal.str "weird")]

/-- An API payload whose single homework record has the status `weird`. -/
def weirdResponse : PyVal :=
  .dict [("homeworks", .list [.dict weirdRecord]), ("current_date", .int 5)]

/-- A world in which the API returns `weirdResponse` with status 200. -/
def envWeird : StepEnv :=
  { http := fun _ => Except.ok { status_code := 200, json := Except.ok weirdResponse },
    now := 0, sendFails := false }

/-- Witness for C4 at a concrete record with status `weird`. -/
theorem parse_status_unknown_status_witness :
    parse_status (PyVal.dict weirdRecord) =
      Except.error (PyErr.keyError "Статус weird не распознан") ∧
    (mainStep envWeird s0).2 = [failMsg (PyErr.keyError "Статус weird не распознан")] := by
  have h := parse_status_unknown_status weirdRecord (PyVal.str "weird")
    envWeird s0 weirdResponse [] rfl rfl rfl rfl rfl
  simpa [s0, PyVal.pyStr, PyVal.reprStr] using h

/-- The five `ShapeError` variants of the specification, in their check
order. -/
inductive ShapeError where
  | notAMapping : ShapeError
  | missingHomeworks : ShapeError
  | homeworksNotAList : ShapeError
  | missingCurrentDate : ShapeError
  | currentDateNotAnInteger : ShapeError
deriving DecidableEq

/-- The concrete exception `check_response` raises for each `ShapeError`
variant. -/
def ShapeError.toPyErr : ShapeError → PyErr
  | .notAMapping => .typeError "Ответ, полученный от API, не является словарем"
  | .missingHomeworks => .keyError "В ответе API нет ключа \"homeworks\""
  | .homeworksNotAList => .typeError "Значение по ключу \"homeworks\" не является списком"
  | .missingCurrentDate => .keyError "В ответе API нет ключа \"current_date\""
  | .currentDateNotAnInteger => .typeError "Значение по ключу \"current_date\" некорректно"

/-- The first failing check of the specification's validation order: not a
mapping, `homeworks` absent, `homeworks` not a list, `current_date` absent,
`current_date` not an integer; `none` when all five checks pass. -/
def shapeCheck (payload : PyVal) : Option ShapeError :=
  if !payload.isDict then some .notAMapping
  else if (payload.lookupKey "homeworks").isNone then some .missingHomeworks
  else if !((payload.lookupKey "homeworks").getD .pyNone).isList then some .homeworksNotAList
  else if (payload.lookupKey "current_date").isNone then some .missingCurrentDate
  else if !((payload.lookupKey "current_date").getD .pyNone).isInt then some .currentDateNotAnInteger
  else Option.none

/-- Claim C5: `check_response` fails with exactly the error corresponding to
the first failing check in the specification's order, and succeeds (with the
`homeworks` value) when all five checks pass. -/
theorem check_response_first_failing_check (payload : PyVal) :
    check_response payload =
      Option.elim ((shapeCheck payload).map ShapeError.toPyErr)
        (Except.ok ((payload.lookupKey "homeworks").getD .pyNone)) Except.error := by
  cases payload with
  | dict kvs =>
    simp only [check_response, shapeCheck, PyVal.isDict, PyVal.lookupKey, Bool.not_true]
    rcases hh : kvs.lookup "homeworks" with _ | hw
    · simp [ShapeError.toPyErr]
    · by_cases hl : hw.isList
      · simp only [hl, Option.isNone_some, Option.getD_some, Bool.not_true, Bool.not_false,
          Bool.false_eq_true, if_false]
        by_cases hn : (kvs.lookup "current_date").isNone
        · rw [Option.isNone_iff_eq_none] at hn
          simp [hn, ShapeError.toPyErr]
        · obtain ⟨cd, hcd⟩ : ∃ cd, kvs.lookup "current_date" = some cd := by
            cases hx : kvs.lookup "current_date"
            · rw [hx] at hn
              simp at hn
            · exact ⟨_, rfl⟩
          by_cases hi : cd.isInt
          · simp [hcd, hi]
          · simp [hcd, hi, ShapeError.toPyErr]
      · simp [hl, ShapeError.toPyErr]
  | pyNone => simp [check_response, shapeCheck, PyVal.isDict, ShapeError.toPyErr]
  | bool b => simp [check_response, shapeCheck, PyVal.isDict, ShapeError.toPyErr]
  | int n => simp [check_response, shapeCheck, PyVal.isDict, ShapeError.toPyErr]
  | str s => simp [check_response, shapeCheck, PyVal.isDict, ShapeError.toPyErr]
  | list xs => simp [check_response, shapeCheck, PyVal.isDict, ShapeError.toPyErr]

/-- Counterexample to claim C6: on the payload
`{"homeworks": [], "current_date": 1000}` the validator succeeds but returns
only the `homeworks` list, and neither `current_date` nor any other field is
accessible from the returned value — it is not a two-field `PollResponse`
view. -/
theorem check_response_result_lacks_current_date :
    check_response (.dict [("homeworks", .list []), ("current_date", .int 1000)]) =
      Except.ok (.list []) ∧
    (PyVal.list []).lookupKey "current_date" = Option.none ∧
    hasIntCurrentDate (.list []) = false := by
  refine ⟨rfl, rfl, rfl⟩

/-- Claim C6 as amended: on success `check_response` returns the payload's
`homeworks` entry (guaranteed to be a list); the presence and integer typing
of `current_date` are guaranteed of the validated input payload — from which
the caller reads it — not of the returned value. -/
theorem check_response_ok_view (payload v : PyVal)
    (h : check_response payload = Except.ok v) :
    (∃ xs, v = PyVal.list xs) ∧
    payload.lookupKey "homeworks" = some v ∧
    hasIntCurrentDate payload = true :=
  check_response_ok_shape h

/-- Witness for the amended C6 at the payload
`{"homeworks": [], "current_date": 1000}`. -/
theorem check_response_ok_view_witness :
    (∃ xs, PyVal.list [] = PyVal.list xs) ∧
    (PyVal.dict [("homeworks", .list []), ("current_date", .int 1000)]).lookupKey "homeworks" =
      some (PyVal.list []) ∧
    hasIntCurrentDate (.dict [("homeworks", .list []), ("current_date", .int 1000)]) = true :=
  check_response_ok_view (.dict [("homeworks", .list []), ("current_date", .int 1000)])
    (PyVal.list []) rfl

/-- Claim C7: a failing iteration leaves the cursor unchanged; a successful
iteration sets the cursor to the fetched response's `current_date` — the
value validated by `check_response` as an integer field — regardless of
whether the iteration sent a notification. -/
theorem mainStep_cursor (env : StepEnv) (s : LoopState) :
    (∀ e, iterBody env s = Except.error e →
      (mainStep env s).1.current_timestamp = s.current_timestamp) ∧
    (∀ ts msgs, iterBody env s = Except.ok (ts, msgs) →
      (mainStep env s).1.current_timestamp = ts ∧
      ∃ response homeworks,
        get_api_answer env.http s.current_timestamp env.now = Except.ok response ∧
        check_response response = Except.ok homeworks ∧
        response.get "current_date" = ts ∧
        hasIntCurrentDate response = true) := by
  constructor
  · intro e h
    rw [mainStep_error_eq env s e h]
    by_cases hc : s.last_error_message = some (failMsg e) <;> simp [hc]
  · intro ts msgs h
    rw [mainStep_ok_eq env s ts msgs h]
    refine ⟨rfl, ?_⟩
    rcases hg : get_api_answer env.http s.current_timestamp env.now with e | response
    · simp only [iterBody, hg] at h
      simp at h
    · simp only [iterBody, hg] at h
      rcases hc : check_response response with e | homeworks
      · simp only [hc] at h
        simp at h
      · simp only [hc] at h
        have hint : hasIntCurrentDate response = true := (check_response_ok_shape hc).2.2
        refine ⟨response, homeworks, rfl, hc, ?_, hint⟩
        by_cases ht : homeworks.truthy
        · simp only [ht, if_true] at h
          rcases hfe : homeworks.firstElem with _ | hw
          · simp only [hfe] at h
            simp at h
          · simp only [hfe] at h
            rcases hps : parse_status hw with e | m
            · simp only [hps] at h
              simp at h
            · simp only [hps, send_message] at h
              simp only [Except.ok.injEq, Prod.mk.injEq] at h
              exact h.1
        · simp only [ht, Bool.false_eq_true, if_false, Except.ok.injEq, Prod.mk.injEq] at h
          exact h.1

/-- Witness for C7: the cursor survives a transport failure and becomes 1000
after the successful empty-homeworks iteration. -/
theorem mainStep_cursor_witness :
    (mainStep envDown s0).1.current_timestamp = s0.current_timestamp ∧
    (mainStep envEmptyOk s0).1.current_timestamp = PyVal.int 1000 := by
  constructor
  · exact (mainStep_cursor envDown s0).1 errDown rfl
  · exact ((mainStep_cursor envEmptyOk s0).2 (PyVal.int 1000) [] rfl).1

/-- Claim C8 as amended: for every nonzero integer cursor the request is
issued with the single query parameter `from_date = cursor` (the HTTP world
is consulted exactly at the cursor value); a zero cursor is falsy in Python,
so `current_timestamp or int(time.time())` substitutes the clock value. -/
theorem get_api_answer_from_date (c now : Int) (h : c ≠ 0)
    (http : PyVal → Except String HttpResponse) :
    apiTimestamp (PyVal.int c) now = PyVal.int c ∧
    get_api_answer http (PyVal.int c) now =
      get_api_answer (fun _ => http (PyVal.int c)) (PyVal.int c) now := by
  have ha : apiTimestamp (PyVal.int c) now = PyVal.int c := by
    simp [apiTimestamp, PyVal.truthy, bne_iff_ne, h]
  refine ⟨ha, ?_⟩
  simp only [get_api_answer, ha]

/-- Witness for the amended C8 at cursor 7. -/
theorem get_api_answer_from_date_witness :
    apiTimestamp (PyVal.int 7) 0 = PyVal.int 7 ∧
    get_api_answer envDown.http (PyVal.int 7) 0 =
      get_api_answer (fun _ => envDown.http (PyVal.int 7)) (PyVal.int 7) 0 :=
  get_api_answer_from_date 7 0 (by decide) envDown.http

/-- An HTTP world that answers successfully only a request issued with
`from_date = 0`, and reports any other request. -/
def httpProbeZero : PyVal → Except String HttpResponse
  | .int 0 =>
    Except.ok { status_code := 200,
                json := Except.ok (.dict [("homeworks", .list []), ("current_date", .int 1)]) }
  | _ => Except.error "request was not issued with from_date = 0"

/-- Counterexample to claim C8: with cursor 0 the request is not issued with
`from_date = 0` — Python's `or` replaces the falsy cursor by the clock value
(here 5), so the probing world sees the wrong parameter and the fetch
fails. -/
theorem get_api_answer_zero_cursor :
    apiTimestamp (PyVal.int 0) 5 = PyVal.int 5 ∧
    get_api_answer httpProbeZero (PyVal.int 0) 5 =
      Except.error
        (.exn "Ошибка при попытке подключения к эндпоинту: request was not issued with from_date = 0") :=
  ⟨rfl, rfl⟩

/-- An HTTP world that always answers 404. -/
def http404 : PyVal → Except String HttpResponse :=
  fun _ => Except.ok { status_code := 404, json := Except.ok (.dict []) }

/-- Counterexample to claim C9: a 404 response and a transport failure both
come out of `get_api_answer` as the same error kind — the catch-all
`except Exception` re-wraps the `ConnectionError` into a plain `Exception`,
so the non-200 failure is not an error kind distinct from transport
failures. -/
theorem get_api_answer_status_kind_not_distinct :
    get_api_answer http404 (PyVal.int 1) 0 =
      Except.error
        (.exn "Ошибка при попытке подключения к эндпоинту: Ответ не получен,код ошибки: 404") ∧
    get_api_answer envDown.http (PyVal.int 1) 0 =
      Except.error (.exn "Ошибка при попытке подключения к эндпоинту: boom") ∧
    PyErr.kindIdx
        (.exn "Ошибка при попытке подключения к эндпоинту: Ответ не получен,код ошибки: 404") =
      PyErr.kindIdx (.exn "Ошибка при попытке подключения к эндпоинту: boom") :=
  ⟨rfl, rfl, rfl⟩

/-- Claim C9 as amended: whenever the response status code is not 200,
`get_api_answer` fails and the failure message includes the actual status
code — but the failure is raised as the same plain `Exception` kind that
wraps transport failures, not a distinct error kind. -/
theorem get_api_answer_bad_status (http : PyVal → Except String HttpResponse)
    (c : PyVal) (now : Int) (resp : HttpResponse)
    (hresp : http (apiTimestamp c now) = Except.ok resp)
    (hcode : resp.status_code ≠ 200) :
    get_api_answer http c now =
      Except.error
        (.exn ("Ошибка при попытке подключения к эндпоинту: " ++
          ("Ответ не получен,код ошибки: " ++ toString resp.status_code))) := by
  have hb : (resp.status_code != 200) = true := by simp [bne_iff_ne, hcode]
  simp only [get_api_answer, hresp, hb, if_true, PyErr.message]

/-- Witness for the amended C9 at a concrete 404 response. -/
theorem get_api_answer_bad_status_witness :
    get_api_answer http404 (PyVal.int 1) 0 =
      Except.error
        (.exn ("Ошибка при попытке подключения к эндпоинту: " ++
          ("Ответ не получен,код ошибки: " ++ toString (404 : Nat)))) :=
  get_api_answer_bad_status http404 (PyVal.int 1) 0
    { status_code := 404, json := Except.ok (.dict []) } rfl (by decide)

/-- A world in which `requests.get` raises and Telegram delivery also
fails. -/
def envDownFailingSend : StepEnv :=
  { http := fun _ => Except.error "boom", now := 0, sendFails := true }

/-- Claim C10: de-duplication tracks attempted sends, not delivered ones —
when delivery of a fresh failure notification itself fails inside
`send_message` (which swallows the delivery error), `last_error_message` is
still updated to that message, so an identical failure on a subsequent
iteration is suppressed even though the recipient never got the original. -/
theorem dedup_tracks_attempted_sends (env : StepEnv) (s : LoopState) (e : PyErr)
    (h : iterBody env s = Except.error e)
    (hfail : env.sendFails = true)
    (hdiff : ¬ s.last_error_message = some (failMsg e)) :
    bot_send_message env.sendFails (failMsg e) = Except.error "Bad Request" ∧
    (mainStep env s).2 = [failMsg e] ∧
    (mainStep env s).1.last_error_message = some (failMsg e) ∧
    (∀ env2 e2, iterBody env2 (mainStep env s).1 = Except.error e2 →
      failMsg e2 = failMsg e → (mainStep env2 (mainStep env s).1).2 = []) := by
  rw [mainStep_error_eq env s e h, if_neg hdiff]
  refine ⟨by simp [bot_send_message, hfail], rfl, rfl, ?_⟩
  intro env2 e2 h2 hm
  rw [mainStep_error_eq env2 _ e2 h2]
  simp [hm]

/-- Witness for C10 at a concrete transport failure with failing delivery. -/
theorem dedup_tracks_attempted_sends_witness :
    bot_send_message envDownFailingSend.sendFails (failMsg errDown) = Except.error "Bad Request" ∧
    (mainStep envDownFailingSend s0).2 = [failMsg errDown] ∧
    (mainStep envDownFailingSend s0).1.last_error_message = some (failMsg errDown) ∧
    (∀ env2 e2, iterBody env2 (mainStep envDownFailingSend s0).1 = Except.error e2 →
      failMsg e2 = failMsg errDown →
      (mainStep env2 (mainStep envDownFailingSend s0).1).2 = []) :=
  dedup_tracks_attempted_sends envDownFailingSend s0 errDown rfl rfl (by decide)
